import Mathlib

/-!
Verification development for the `LlmInputs` payload-generation pipeline of
`genai_perf/llm_inputs/llm_inputs.py`.

Modelling conventions (shallow embedding of the Python source):
* Python dicts with a fixed key set become Lean structures; a key that may be
  absent becomes an `Option` field (absence = `none`).
* A JSON value that is a one-element list which the code only ever reads and
  writes through index `[0]` (the `text_input` / `prompt` strings and the
  single entry of the chat `payload` list) is represented by its element.
  Lists stored whole and never indexed (`max_tokens`, the list-wrapped
  `stream` flag) stay lists.
* A row dict iterated with `.items()` becomes an ordered association list
  `List (String × String)` (Python dicts preserve insertion order).
* The top-level `{"data": [...]}` wrapper is represented by the list itself.
* Raising `GenAIPerfException(msg)` becomes `Except.error msg`.
* The observable side effects (the single network fetch and the output-file
  write) are recorded in an explicit event trace returned alongside the
  result, so that "no side effect happened" is a statement about the trace.
* `requests.get` / response parsing and `SyntheticPromptGenerator` are
  external collaborators; they enter as function parameters.
-/

/-- `InputType` enum of the source. -/
inductive InputType where
  | URL
  | FILE
  | SYNTHETIC
deriving DecidableEq, Repr

/-- `OutputFormat` enum of the source. -/
inductive OutputFormat where
  | OPENAI_CHAT_COMPLETIONS
  | OPENAI_COMPLETIONS
  | TRTLLM
  | VLLM
deriving DecidableEq, Repr

/-- A dataset row: ordered header/value pairs (`entry.items()`). -/
abbrev Row : Type := List (String × String)

/-- One element of the raw `features` list: `{"name": str}`. -/
structure RawFeature where
  name : String
deriving DecidableEq, Repr

/-- One element of the raw `rows` list: `{"row": {...}}`. -/
structure RawRow where
  row : Row
deriving DecidableEq, Repr

/-- A raw dataset as consumed by `_convert_dataset_to_generic_input_json`:
`features` is `none` when the `"features"` key is absent. -/
structure RawDataset where
  features : Option (List RawFeature)
  rows : List RawRow
deriving DecidableEq, Repr

/-- The generic (canonical) dataset built by the normalization step.
`features = none` models a generic JSON dict with no `"features"` key. -/
structure GenericDataset where
  features : Option (List String)
  rows : List Row
deriving DecidableEq, Repr

/-- `_add_features_to_generic_json`: copy the feature names into the generic
json only when the raw dataset has a `"features"` key. -/
def _add_features_to_generic_json (dataset_json : RawDataset) : Option (List String) :=
  match dataset_json.features with
  | some features => some (features.map RawFeature.name)
  | none => none

/-- `_add_rows_to_generic_json`: unwrap each `{"row": ...}` wrapper. -/
def _add_rows_to_generic_json (dataset_json : RawDataset) : List Row :=
  dataset_json.rows.map RawRow.row

/-- `_convert_dataset_to_generic_input_json`. -/
def _convert_dataset_to_generic_input_json (dataset_json : RawDataset) : GenericDataset :=
  { features := _add_features_to_generic_json dataset_json
    rows := _add_rows_to_generic_json dataset_json }

/-- `_convert_input_synthetic_dataset_to_generic_json`. -/
def _convert_input_synthetic_dataset_to_generic_json (dataset : RawDataset) : GenericDataset :=
  _convert_dataset_to_generic_input_json dataset

/-- `SYSTEM_ROLE_LIST` local constant of `_determine_json_feature_roles`. -/
def SYSTEM_ROLE_LIST : List String := ["system_prompt"]

/-- `USER_ROLE_LIST` local constant of `_determine_json_feature_roles`. -/
def USER_ROLE_LIST : List String := ["question", "article"]

/-- `TEXT_INPUT_LIST` local constant of `_determine_json_feature_roles`. -/
def TEXT_INPUT_LIST : List String := ["text_input"]

/-- Loop body of `_determine_json_feature_roles`: three independent
membership checks, the `text_input` match appending to the user list. -/
def _determine_json_feature_roles_step
    (acc : List String × List String × List String) (feature : String) :
    List String × List String × List String :=
  let acc := if feature ∈ SYSTEM_ROLE_LIST then
    (acc.1 ++ [feature], acc.2.1, acc.2.2) else acc
  let acc := if feature ∈ USER_ROLE_LIST then
    (acc.1, acc.2.1 ++ [feature], acc.2.2) else acc
  if feature ∈ TEXT_INPUT_LIST then
    (acc.1, acc.2.1 ++ [feature], acc.2.2) else acc

/-- `_determine_json_feature_roles`: bucket each declared feature into the
system / user / text-input role lists (no `"features"` key means the loop is
skipped and all three lists stay empty). -/
def _determine_json_feature_roles (dataset_json : GenericDataset) :
    List String × List String × List String :=
  match dataset_json.features with
  | none => ([], [], [])
  | some features =>
      features.foldl _determine_json_feature_roles_step ([], [], [])

/-- A chat message `{"role": ..., "content": ...}`. -/
structure ChatMessage where
  role : String
  content : String
deriving DecidableEq, Repr

/-- One openai-chat-completions payload: the single entry of the `payload`
list, i.e. `{"messages": [...], ["model"], ["stream"]}`. -/
structure ChatPayload where
  messages : List ChatMessage := []
  model : Option String := none
  stream : Option Bool := none
deriving DecidableEq, Repr

/-- One openai-completions payload: `{"prompt": [text], ["model"], ["stream"]}`
(the one-element `prompt` list represented by its element). -/
structure CompletionsPayload where
  prompt : String := ""
  model : Option String := none
  stream : Option Bool := none
deriving DecidableEq, Repr

/-- One vllm payload: `{"text_input": [text], ["model"], ["stream": [bool]]}`. -/
structure VllmPayload where
  text_input : String := ""
  model : Option String := none
  stream : Option (List Bool) := none
deriving DecidableEq, Repr

/-- One trtllm payload:
`{"text_input": [text], "max_tokens": [int], ["model"], ["stream": [bool]]}`;
`max_tokens` is absent until `_add_required_tags_to_trtllm_json` sets it. -/
structure TrtllmPayload where
  text_input : String := ""
  max_tokens : Option (List Int) := none
  model : Option String := none
  stream : Option (List Bool) := none
deriving DecidableEq, Repr

/-- `DEFAULT_TRTLLM_MAX_TOKENS` class constant. -/
def DEFAULT_TRTLLM_MAX_TOKENS : Int := 256

/-- `_create_new_openai_chat_completions_message`: blank content or an
unclassified header returns the empty dict `{}` (modelled `none`), which
`_add_new_message_to_json` then skips. -/
def _create_new_openai_chat_completions_message
    (header : String) (system_role_headers user_role_headers : List String)
    (content : String) : Option ChatMessage :=
  if content = "" then none
  else if header ∈ system_role_headers then some { role := "system", content := content }
  else if header ∈ user_role_headers then some { role := "user", content := content }
  else none

/-- `_add_new_message_to_json`: append the message to
`pa_json["data"][index]["payload"][0]["messages"]` unless it is empty. -/
def _add_new_message_to_json (pa_json : List ChatPayload) (index : Nat)
    (new_message : Option ChatMessage) : List ChatPayload :=
  match new_message with
  | some m =>
      pa_json.set index
        { pa_json.getD index ⟨[], none, none⟩ with
          messages := (pa_json.getD index ⟨[], none, none⟩).messages ++ [m] }
  | none => pa_json

/-- `_add_optional_tags_to_openai_json`, instantiated at the chat payload
shape (the source function is one dynamically-typed helper shared by the two
openai formatters; it is split here per payload structure). -/
def _add_optional_tags_to_openai_chat_json (pa_json : List ChatPayload) (index : Nat)
    (add_model_name add_stream : Bool) (model_name : String) : List ChatPayload :=
  let pa_json := if add_model_name then
    pa_json.set index { pa_json.getD index ⟨[], none, none⟩ with model := some model_name } else pa_json
  if add_stream then
    pa_json.set index { pa_json.getD index ⟨[], none, none⟩ with stream := some true } else pa_json

/-- `_populate_openai_chat_completions_output_json`: one loop iteration per
row, appending `{"payload": [{"messages": []}]}` and then folding the row's
header/value pairs at the row's own index (`index` is the enumerate counter,
which always equals the number of previously emitted payloads). -/
def _populate_openai_chat_completions_output_json (dataset_json : GenericDataset)
    (system_role_headers user_role_headers : List String)
    (add_model_name add_stream : Bool) (model_name : String) : List ChatPayload :=
  dataset_json.rows.foldl
    (fun pa_json entry =>
      let index := pa_json.length
      let pa_json := pa_json ++ [(⟨[], none, none⟩ : ChatPayload)]
      let pa_json := entry.foldl
        (fun pa_json hc =>
          _add_new_message_to_json pa_json index
            (_create_new_openai_chat_completions_message hc.1
              system_role_headers user_role_headers hc.2))
        pa_json
      _add_optional_tags_to_openai_chat_json pa_json index
        add_model_name add_stream model_name)
    []

/-- `_convert_generic_json_to_openai_chat_completions_format` (the third role
list returned by `_determine_json_feature_roles` is discarded). -/
def _convert_generic_json_to_openai_chat_completions_format
    (dataset_json : GenericDataset) (add_model_name add_stream : Bool)
    (model_name : String) : List ChatPayload :=
  match _determine_json_feature_roles dataset_json with
  | (system_role_headers, user_role_headers, _) =>
      _populate_openai_chat_completions_output_json dataset_json
        system_role_headers user_role_headers add_model_name add_stream model_name

/-- `_create_new_prompt`: the content when the header is classified into any
of the three role lists, `""` otherwise. -/
def _create_new_prompt (header : String)
    (system_role_headers user_role_headers text_input_headers : List String)
    (content : String) : String :=
  if header ∈ system_role_headers ∨ header ∈ user_role_headers
      ∨ header ∈ text_input_headers then content
  else ""

/-- `_create_new_text_input`: identical logic to `_create_new_prompt`. -/
def _create_new_text_input (header : String)
    (system_role_headers user_role_headers text_input_headers : List String)
    (content : String) : String :=
  if header ∈ system_role_headers ∨ header ∈ user_role_headers
      ∨ header ∈ text_input_headers then content
  else ""

/-- `_add_new_prompt_to_json`: grow
`pa_json["data"][index]["payload"][0]["prompt"][0]`, inserting a single
separating space when the field already holds text. -/
def _add_new_prompt_to_json (pa_json : List CompletionsPayload) (index : Nat)
    (new_prompt : String) : List CompletionsPayload :=
  if new_prompt ≠ "" then
    if (pa_json.getD index ⟨"", none, none⟩).prompt ≠ "" then
      pa_json.set index
        { pa_json.getD index ⟨"", none, none⟩ with
          prompt := (pa_json.getD index ⟨"", none, none⟩).prompt ++ " " ++ new_prompt }
    else
      pa_json.set index
        { pa_json.getD index ⟨"", none, none⟩ with prompt := new_prompt }
  else pa_json

/-- `_add_new_text_input_to_json`, at the vllm payload shape. -/
def _add_new_text_input_to_json (pa_json : List VllmPayload) (index : Nat)
    (new_text_input : String) : List VllmPayload :=
  if new_text_input ≠ "" then
    if (pa_json.getD index ⟨"", none, none⟩).text_input ≠ "" then
      pa_json.set index
        { pa_json.getD index ⟨"", none, none⟩ with
          text_input := (pa_json.getD index ⟨"", none, none⟩).text_input
            ++ " " ++ new_text_input }
    else
      pa_json.set index
        { pa_json.getD index ⟨"", none, none⟩ with text_input := new_text_input }
  else pa_json

/-- `_add_new_text_input_to_json`, at the trtllm payload shape (the source
helper is one dynamically-typed function used by both formatters). -/
def _add_new_text_input_to_trtllm_json (pa_json : List TrtllmPayload) (index : Nat)
    (new_text_input : String) : List TrtllmPayload :=
  if new_text_input ≠ "" then
    if (pa_json.getD index ⟨"", none, none, none⟩).text_input ≠ "" then
      pa_json.set index
        { pa_json.getD index ⟨"", none, none, none⟩ with
          text_input := (pa_json.getD index ⟨"", none, none, none⟩).text_input
            ++ " " ++ new_text_input }
    else
      pa_json.set index
        { pa_json.getD index ⟨"", none, none, none⟩ with text_input := new_text_input }
  else pa_json

/-- `_add_optional_tags_to_openai_json`, at the completions payload shape. -/
def _add_optional_tags_to_openai_completions_json (pa_json : List CompletionsPayload)
    (index : Nat) (add_model_name add_stream : Bool) (model_name : String) :
    List CompletionsPayload :=
  let pa_json := if add_model_name then
    pa_json.set index
      { pa_json.getD index ⟨"", none, none⟩ with model := some model_name }
    else pa_json
  if add_stream then
    pa_json.set index { pa_json.getD index ⟨"", none, none⟩ with stream := some true }
  else pa_json

/-- `_add_optional_tags_to_vllm_json` (`stream` is set to the list `[True]`). -/
def _add_optional_tags_to_vllm_json (pa_json : List VllmPayload) (index : Nat)
    (add_model_name add_stream : Bool) (model_name : String) : List VllmPayload :=
  let pa_json := if add_model_name then
    pa_json.set index
      { pa_json.getD index ⟨"", none, none⟩ with model := some model_name }
    else pa_json
  if add_stream then
    pa_json.set index { pa_json.getD index ⟨"", none, none⟩ with stream := some [true] }
  else pa_json

/-- `_add_optional_tags_to_trtllm_json`. -/
def _add_optional_tags_to_trtllm_json (pa_json : List TrtllmPayload) (index : Nat)
    (add_model_name add_stream : Bool) (model_name : String) : List TrtllmPayload :=
  let pa_json := if add_model_name then
    pa_json.set index
      { pa_json.getD index ⟨"", none, none, none⟩ with model := some model_name }
    else pa_json
  if add_stream then
    pa_json.set index
      { pa_json.getD index ⟨"", none, none, none⟩ with stream := some [true] }
  else pa_json

/-- `_add_required_tags_to_trtllm_json`: unconditionally set
`pa_json["data"][index]["max_tokens"] = [DEFAULT_TRTLLM_MAX_TOKENS]`. -/
def _add_required_tags_to_trtllm_json (pa_json : List TrtllmPayload) (index : Nat) :
    List TrtllmPayload :=
  pa_json.set index
    { pa_json.getD index ⟨"", none, none, none⟩ with
      max_tokens := some [DEFAULT_TRTLLM_MAX_TOKENS] }

/-- `_populate_openai_completions_output_json`. -/
def _populate_openai_completions_output_json (dataset_json : GenericDataset)
    (system_role_headers user_role_headers text_input_headers : List String)
    (add_model_name add_stream : Bool) (model_name : String) :
    List CompletionsPayload :=
  dataset_json.rows.foldl
    (fun pa_json entry =>
      let index := pa_json.length
      let pa_json := pa_json ++ [(⟨"", none, none⟩ : CompletionsPayload)]
      let pa_json := entry.foldl
        (fun pa_json hc =>
          _add_new_prompt_to_json pa_json index
            (_create_new_prompt hc.1 system_role_headers user_role_headers
              text_input_headers hc.2))
        pa_json
      _add_optional_tags_to_openai_completions_json pa_json index
        add_model_name add_stream model_name)
    []

/-- `_populate_vllm_output_json`. -/
def _populate_vllm_output_json (dataset_json : GenericDataset)
    (system_role_headers user_role_headers text_input_headers : List String)
    (add_model_name add_stream : Bool) (model_name : String) : List VllmPayload :=
  dataset_json.rows.foldl
    (fun pa_json entry =>
      let index := pa_json.length
      let pa_json := pa_json ++ [(⟨"", none, none⟩ : VllmPayload)]
      let pa_json := entry.foldl
        (fun pa_json hc =>
          _add_new_text_input_to_json pa_json index
            (_create_new_text_input hc.1 system_role_headers user_role_headers
              text_input_headers hc.2))
        pa_json
      _add_optional_tags_to_vllm_json pa_json index
        add_model_name add_stream model_name)
    []

/-- `_populate_trtllm_output_json`: required tags are applied after the text
fold and before the optional tags, every iteration. -/
def _populate_trtllm_output_json (dataset_json : GenericDataset)
    (system_role_headers user_role_headers text_input_headers : List String)
    (add_model_name add_stream : Bool) (model_name : String) : List TrtllmPayload :=
  dataset_json.rows.foldl
    (fun pa_json entry =>
      let index := pa_json.length
      let pa_json := pa_json ++ [(⟨"", none, none, none⟩ : TrtllmPayload)]
      let pa_json := entry.foldl
        (fun pa_json hc =>
          _add_new_text_input_to_trtllm_json pa_json index
            (_create_new_text_input hc.1 system_role_headers user_role_headers
              text_input_headers hc.2))
        pa_json
      let pa_json := _add_required_tags_to_trtllm_json pa_json index
      _add_optional_tags_to_trtllm_json pa_json index
        add_model_name add_stream model_name)
    []

/-- `_convert_generic_json_to_openai_completions_format`. -/
def _convert_generic_json_to_openai_completions_format (dataset_json : GenericDataset)
    (add_model_name add_stream : Bool) (model_name : String) :
    List CompletionsPayload :=
  match _determine_json_feature_roles dataset_json with
  | (system_role_headers, user_role_headers, text_input_headers) =>
      _populate_openai_completions_output_json dataset_json system_role_headers
        user_role_headers text_input_headers add_model_name add_stream model_name

/-- `_convert_generic_json_to_vllm_format`. -/
def _convert_generic_json_to_vllm_format (dataset_json : GenericDataset)
    (add_model_name add_stream : Bool) (model_name : String) : List VllmPayload :=
  match _determine_json_feature_roles dataset_json with
  | (system_role_headers, user_role_headers, text_input_headers) =>
      _populate_vllm_output_json dataset_json system_role_headers
        user_role_headers text_input_headers add_model_name add_stream model_name

/-- `_convert_generic_json_to_trtllm_format`. -/
def _convert_generic_json_to_trtllm_format (dataset_json : GenericDataset)
    (add_model_name add_stream : Bool) (model_name : String) : List TrtllmPayload :=
  match _determine_json_feature_roles dataset_json with
  | (system_role_headers, user_role_headers, text_input_headers) =>
      _populate_trtllm_output_json dataset_json system_role_headers
        user_role_headers text_input_headers add_model_name add_stream model_name

/-- The output artifact of `_convert_generic_json_to_output_format`: the
`{"data": [...]}` document, tagged by which payload schema fills the list. -/
inductive PAJson where
  | openaiChat (data : List ChatPayload)
  | openaiCompletions (data : List CompletionsPayload)
  | vllm (data : List VllmPayload)
  | trtllm (data : List TrtllmPayload)
deriving DecidableEq, Repr

/-- `_convert_generic_json_to_output_format` (the `else` branch of the source
raises on an unsupported selector; the `OutputFormat` enum is closed, so the
four-way match is exhaustive). -/
def _convert_generic_json_to_output_format (output_format : OutputFormat)
    (generic_dataset : GenericDataset) (add_model_name add_stream : Bool)
    (model_name : String) : PAJson :=
  match output_format with
  | OutputFormat.OPENAI_CHAT_COMPLETIONS =>
      PAJson.openaiChat
        (_convert_generic_json_to_openai_chat_completions_format generic_dataset
          add_model_name add_stream model_name)
  | OutputFormat.OPENAI_COMPLETIONS =>
      PAJson.openaiCompletions
        (_convert_generic_json_to_openai_completions_format generic_dataset
          add_model_name add_stream model_name)
  | OutputFormat.VLLM =>
      PAJson.vllm
        (_convert_generic_json_to_vllm_format generic_dataset
          add_model_name add_stream model_name)
  | OutputFormat.TRTLLM =>
      PAJson.trtllm
        (_convert_generic_json_to_trtllm_format generic_dataset
          add_model_name add_stream model_name)

/-- `MINIMUM_STARTING_INDEX` class constant. -/
def MINIMUM_STARTING_INDEX : Int := 0

/-- `MINIMUM_LENGTH` class constant. -/
def MINIMUM_LENGTH : Int := 1

/-- Modelled from the spec: the constant `OPEN_ORCA` lives in the module
`genai_perf.constants`, which is not part of the given source; the spec names
the registry keys `openorca` and `cnn_dailymail`. -/
def OPEN_ORCA : String := "openorca"

/-- Modelled from the spec: the constant `CNN_DAILY_MAIL` of
`genai_perf.constants` (see `OPEN_ORCA`). -/
def CNN_DAILY_MAIL : String := "cnn_dailymail"

/-- `OPEN_ORCA_URL` class constant. -/
def OPEN_ORCA_URL : String :=
  "https://datasets-server.huggingface.co/rows?dataset=Open-Orca%2FOpenOrca&config=default&split=train"

/-- `CNN_DAILYMAIL_URL` class constant. -/
def CNN_DAILYMAIL_URL : String :=
  "https://datasets-server.huggingface.co/rows?dataset=cnn_dailymail&config=1.0.0&split=train"

/-- `dataset_url_map` class attribute, as an association list. -/
def dataset_url_map : List (String × String) :=
  [(OPEN_ORCA, OPEN_ORCA_URL), (CNN_DAILY_MAIL, CNN_DAILYMAIL_URL)]

/-- `_check_for_dataset_name_if_input_type_is_url`. -/
def _check_for_dataset_name_if_input_type_is_url (input_type : InputType)
    (dataset_name : String) : Except String Unit :=
  if input_type = InputType.URL ∧ dataset_name = "" then
    Except.error "Input type is URL, but dataset_name is not specified."
  else Except.ok ()

/-- `_check_for_valid_starting_index` (the `isinstance` guard cannot fire in
a typed embedding; the numeric bound remains). -/
def _check_for_valid_starting_index (starting_index : Int) : Except String Unit :=
  if starting_index < MINIMUM_STARTING_INDEX then
    Except.error ("starting_index: " ++ toString starting_index
      ++ " must be larger than " ++ toString MINIMUM_STARTING_INDEX ++ ".")
  else Except.ok ()

/-- `_check_for_valid_length` (the error message labels the value
`starting_index:`, copied verbatim from the source). -/
def _check_for_valid_length (length : Int) : Except String Unit :=
  if length < MINIMUM_LENGTH then
    Except.error ("starting_index: " ++ toString length
      ++ " must be larger than " ++ toString MINIMUM_LENGTH ++ ".")
  else Except.ok ()

/-- `_check_for_valid_args`: the three checks in source order; the first
failure propagates (re-wrapped into the same exception family with the same
message). -/
def _check_for_valid_args (input_type : InputType) (dataset_name : String)
    (starting_index length : Int) : Except String Unit := do
  _check_for_dataset_name_if_input_type_is_url input_type dataset_name
  _check_for_valid_starting_index starting_index
  _check_for_valid_length length

/-- `_resolve_url`: look the dataset name up in `dataset_url_map`. -/
def _resolve_url (dataset_name : String) : Except String String :=
  match dataset_url_map.lookup dataset_name with
  | some url => Except.ok url
  | none =>
      Except.error (dataset_name
        ++ " does not have a corresponding URL in the dataset_url_map.")

/-- `_create_configured_url`: append the offset/length query parameters. -/
def _create_configured_url (url : String) (starting_index length : Int) : String :=
  url ++ "&offset=" ++ toString starting_index ++ "&length=" ++ toString length

/-- The observable side effects of one `create_llm_inputs` run. -/
inductive Event where
  | networkFetch (configured_url : String)
  | wroteFile
deriving DecidableEq, Repr

/-- A parsed dataset-server response body: either a JSON object carrying an
`"error"` key, or a well-shaped raw dataset. -/
inductive DatasetJson where
  | withError (msg : String)
  | parsed (raw : RawDataset)
deriving DecidableEq, Repr

/-- `_download_dataset` / `_query_server`: one network fetch of the
configured URL. The transport layer (`requests.get` plus the
`_create_error_message` wrapping of a transport exception into an
`Invalid URL: ...` message) is the external collaborator `fetch`. -/
def _download_dataset (fetch : String → Except String DatasetJson)
    (configured_url : String) : List Event × Except String DatasetJson :=
  ([Event.networkFetch configured_url], fetch configured_url)

/-- `_get_input_dataset_from_url`: resolve, configure, then download. A
resolution failure happens strictly before the fetch, so the trace is empty. -/
def _get_input_dataset_from_url (fetch : String → Except String DatasetJson)
    (dataset_name : String) (starting_index length : Int) :
    List Event × Except String DatasetJson :=
  match _resolve_url dataset_name with
  | Except.error e => ([], Except.error e)
  | Except.ok url =>
      let configured_url := _create_configured_url url starting_index length
      _download_dataset fetch configured_url

/-- `_check_for_error_in_json_of_dataset`. -/
def _check_for_error_in_json_of_dataset (json_of_dataset : DatasetJson) :
    Except String Unit :=
  match json_of_dataset with
  | DatasetJson.withError msg => Except.error msg
  | DatasetJson.parsed _ => Except.ok ()

/-- `_convert_input_url_dataset_to_generic_json`. -/
def _convert_input_url_dataset_to_generic_json (dataset : DatasetJson) :
    Except String GenericDataset :=
  match dataset with
  | DatasetJson.withError msg => Except.error msg
  | DatasetJson.parsed raw => Except.ok (_convert_dataset_to_generic_input_json raw)

/-- `_create_synthetic_prompt`: seeds the global RNG with `random_seed` and
invokes the external generator. `gen` is modelled from the spec:
`SyntheticPromptGenerator.create_synthetic_prompt` is not part of the given
source and is assumed (as the spec states) to be a deterministic function of
the seeded RNG state and its three arguments, so it enters as a pure function
of `(seed, mean, stddev, expected_output_tokens)`. -/
def _create_synthetic_prompt (gen : Int → Int → Int → Int → String × Int)
    (prompt_tokens_mean prompt_tokens_stddev expected_output_tokens : Int)
    (random_seed : Int) : String × Int :=
  gen random_seed prompt_tokens_mean prompt_tokens_stddev expected_output_tokens

/-- `_get_input_dataset_from_synthetic`: one `text_input` feature and one row
per generated prompt, the prompt at loop index `i` generated under seed
`random_seed + i`. -/
def _get_input_dataset_from_synthetic (gen : Int → Int → Int → Int → String × Int)
    (prompt_tokens_mean prompt_tokens_stddev expected_output_tokens : Int)
    (num_of_output_prompts : Nat) (random_seed : Int) : RawDataset :=
  { features := some [{ name := "text_input" }]
    rows := (List.range num_of_output_prompts).map
      (fun (index : Nat) =>
        { row := [("text_input",
            (_create_synthetic_prompt gen prompt_tokens_mean prompt_tokens_stddev
              expected_output_tokens (random_seed + (index : Int))).1)] }) }

/-- `create_llm_inputs`: validate, acquire the dataset, normalize, format,
write. The returned trace records the network fetch and the file write in
program order; every raise path returns the error with whatever trace had
accumulated (an early raise therefore shows an empty trace). -/
def create_llm_inputs (fetch : String → Except String DatasetJson)
    (gen : Int → Int → Int → Int → String × Int)
    (input_type : InputType) (output_format : OutputFormat)
    (dataset_name model_name : String) (starting_index length : Int)
    (prompt_tokens_mean prompt_tokens_stddev expected_output_tokens : Int)
    (random_seed : Int) (num_of_output_prompts : Nat)
    (add_model_name add_stream : Bool) : List Event × Except String PAJson :=
  match _check_for_valid_args input_type dataset_name starting_index length with
  | Except.error e => ([], Except.error e)
  | Except.ok _ =>
      match input_type with
      | InputType.URL =>
          match _get_input_dataset_from_url fetch dataset_name starting_index length with
          | (events, Except.error e) => (events, Except.error e)
          | (events, Except.ok dataset) =>
              match _convert_input_url_dataset_to_generic_json dataset with
              | Except.error e => (events, Except.error e)
              | Except.ok generic_dataset_json =>
                  let json_in_pa_format := _convert_generic_json_to_output_format
                    output_format generic_dataset_json add_model_name add_stream
                    model_name
                  (events ++ [Event.wroteFile], Except.ok json_in_pa_format)
      | InputType.SYNTHETIC =>
          let dataset := _get_input_dataset_from_synthetic gen prompt_tokens_mean
            prompt_tokens_stddev expected_output_tokens num_of_output_prompts
            random_seed
          let generic_dataset_json :=
            _convert_input_synthetic_dataset_to_generic_json dataset
          let json_in_pa_format := _convert_generic_json_to_output_format
            output_format generic_dataset_json add_model_name add_stream model_name
          ([Event.wroteFile], Except.ok json_in_pa_format)
      | InputType.FILE =>
          ([], Except.error "Using a file to supply LLM Input is not supported at this time")

/-! ## Derived row-level views of the formatters

The populate loops only ever touch the payload at the row's own index, so
each formatter is a `List.map` of a per-row builder. The builders below are
the closed forms; the `populate_*_eq_map` lemmas prove them equal to the
source-translated loops. `joinContribution` is the spec-side description of
the text-concatenation step ("first non-empty contribution sets the field,
later non-empty contributions are appended after one space, empty
contributions are no-ops"). -/

/-- Spec-side fold step for the single growable text field. -/
def joinContribution (acc contribution : String) : String :=
  if contribution = "" then acc
  else if acc = "" then contribution
  else acc ++ " " ++ contribution

/-- Closed form of one chat-completions payload built from one row. -/
def makeChatPayload (entry : Row) (system_role_headers user_role_headers : List String)
    (add_model_name add_stream : Bool) (model_name : String) : ChatPayload :=
  { messages := entry.filterMap
      (fun hc => _create_new_openai_chat_completions_message hc.1
        system_role_headers user_role_headers hc.2)
    model := if add_model_name then some model_name else none
    stream := if add_stream then some true else none }

/-- Closed form of one openai-completions payload built from one row. -/
def makeCompletionsPayload (entry : Row)
    (system_role_headers user_role_headers text_input_headers : List String)
    (add_model_name add_stream : Bool) (model_name : String) : CompletionsPayload :=
  { prompt := entry.foldl
      (fun acc hc => joinContribution acc
        (_create_new_prompt hc.1 system_role_headers user_role_headers
          text_input_headers hc.2)) ""
    model := if add_model_name then some model_name else none
    stream := if add_stream then some true else none }

/-- Closed form of one vllm payload built from one row. -/
def makeVllmPayload (entry : Row)
    (system_role_headers user_role_headers text_input_headers : List String)
    (add_model_name add_stream : Bool) (model_name : String) : VllmPayload :=
  { text_input := entry.foldl
      (fun acc hc => joinContribution acc
        (_create_new_text_input hc.1 system_role_headers user_role_headers
          text_input_headers hc.2)) ""
    model := if add_model_name then some model_name else none
    stream := if add_stream then some [true] else none }

/-- Closed form of one trtllm payload built from one row. -/
def makeTrtllmPayload (entry : Row)
    (system_role_headers user_role_headers text_input_headers : List String)
    (add_model_name add_stream : Bool) (model_name : String) : TrtllmPayload :=
  { text_input := entry.foldl
      (fun acc hc => joinContribution acc
        (_create_new_text_input hc.1 system_role_headers user_role_headers
          text_input_headers hc.2)) ""
    max_tokens := some [DEFAULT_TRTLLM_MAX_TOKENS]
    model := if add_model_name then some model_name else none
    stream := if add_stream then some [true] else none }

/-! ## Shared list lemmas for the append-then-mutate loop shape -/

theorem list_getD_concat {α : Type _} (l : List α) (x d : α) :
    (l ++ [x]).getD l.length d = x := by
  induction l with
  | nil => rfl
  | cons a l ih => simp

theorem list_set_concat {α : Type _} (l : List α) (x y : α) :
    (l ++ [x]).set l.length y = l ++ [y] := by
  induction l with
  | nil => rfl
  | cons a l ih => simp

/-- A fold whose every step only rewrites the final element of `l ++ [x]`
acts as a fold on that element alone. -/
theorem foldl_concat_fixed {P A : Type _} (F : List P → A → List P) (f : P → A → P)
    (l : List P) (hF : ∀ x a, F (l ++ [x]) a = l ++ [f x a]) :
    ∀ (items : List A) (x : P), items.foldl F (l ++ [x]) = l ++ [items.foldl f x] := by
  intro items
  induction items with
  | nil => intro x; rfl
  | cons a items ih => intro x; rw [List.foldl_cons, hF, ih, List.foldl_cons]

/-- A fold whose every step appends exactly one element is a map. -/
theorem foldl_append_one {A P : Type _} (step : List P → A → List P) (make : A → P)
    (hstep : ∀ l a, step l a = l ++ [make a]) :
    ∀ (items : List A) (l : List P), items.foldl step l = l ++ items.map make := by
  intro items
  induction items with
  | nil => intro l; simp
  | cons a items ih =>
      intro l
      rw [List.foldl_cons, hstep, ih, List.map_cons]
      simp

/-! ## The chat-completions loop is a map of the row builder -/

/-- Element-level effect of `_add_new_message_to_json` at the row's index. -/
def chatMsgStep (system_role_headers user_role_headers : List String)
    (x : ChatPayload) (hc : String × String) : ChatPayload :=
  match _create_new_openai_chat_completions_message hc.1
      system_role_headers user_role_headers hc.2 with
  | some m => { x with messages := x.messages ++ [m] }
  | none => x

theorem add_new_message_concat (l : List ChatPayload) (x : ChatPayload)
    (system_role_headers user_role_headers : List String) (hc : String × String) :
    _add_new_message_to_json (l ++ [x]) l.length
      (_create_new_openai_chat_completions_message hc.1
        system_role_headers user_role_headers hc.2)
      = l ++ [chatMsgStep system_role_headers user_role_headers x hc] := by
  unfold _add_new_message_to_json chatMsgStep
  cases h : _create_new_openai_chat_completions_message hc.1
      system_role_headers user_role_headers hc.2 with
  | none => rfl
  | some m => simp [list_getD_concat, list_set_concat]

theorem chatMsgStep_foldl (system_role_headers user_role_headers : List String)
    (entry : Row) : ∀ x : ChatPayload,
    entry.foldl (chatMsgStep system_role_headers user_role_headers) x =
      { x with messages := x.messages ++ entry.filterMap (fun hc =>
          _create_new_openai_chat_completions_message hc.1
            system_role_headers user_role_headers hc.2) } := by
  induction entry with
  | nil => intro x; simp
  | cons hc entry ih =>
      intro x
      rw [List.foldl_cons, ih]
      unfold chatMsgStep
      cases h : _create_new_openai_chat_completions_message hc.1
          system_role_headers user_role_headers hc.2 with
      | none => simp [h, List.filterMap_cons]
      | some m => simp [h, List.filterMap_cons]

/-- Element-level effect of the optional-tags helper at the row's index. -/
def applyChatOptional (x : ChatPayload) (add_model_name add_stream : Bool)
    (model_name : String) : ChatPayload :=
  let x := if add_model_name then { x with model := some model_name } else x
  if add_stream then { x with stream := some true } else x

theorem chat_opt_concat (l : List ChatPayload) (x : ChatPayload)
    (add_model_name add_stream : Bool) (model_name : String) :
    _add_optional_tags_to_openai_chat_json (l ++ [x]) l.length
      add_model_name add_stream model_name
      = l ++ [applyChatOptional x add_model_name add_stream model_name] := by
  unfold _add_optional_tags_to_openai_chat_json applyChatOptional
  cases add_model_name <;> cases add_stream <;>
    simp [list_getD_concat, list_set_concat]

theorem populate_chat_eq_map (d : GenericDataset)
    (system_role_headers user_role_headers : List String)
    (add_model_name add_stream : Bool) (model_name : String) :
    _populate_openai_chat_completions_output_json d
        system_role_headers user_role_headers add_model_name add_stream model_name
      = d.rows.map (fun entry => makeChatPayload entry
          system_role_headers user_role_headers add_model_name add_stream
          model_name) := by
  unfold _populate_openai_chat_completions_output_json
  have hstep : ∀ (l : List ChatPayload) (entry : Row),
      (_add_optional_tags_to_openai_chat_json
        (entry.foldl
          (fun pa_json hc => _add_new_message_to_json pa_json l.length
            (_create_new_openai_chat_completions_message hc.1
              system_role_headers user_role_headers hc.2))
          (l ++ [(⟨[], none, none⟩ : ChatPayload)]))
        l.length add_model_name add_stream model_name)
      = l ++ [makeChatPayload entry system_role_headers user_role_headers
          add_model_name add_stream model_name] := by
    intro l entry
    rw [foldl_concat_fixed _ (chatMsgStep system_role_headers user_role_headers) l
        (fun x hc => add_new_message_concat l x system_role_headers
          user_role_headers hc) entry ⟨[], none, none⟩]
    rw [chat_opt_concat, chatMsgStep_foldl]
    unfold applyChatOptional makeChatPayload
    cases add_model_name <;> cases add_stream <;> simp
  rw [foldl_append_one _
      (fun entry => makeChatPayload entry system_role_headers user_role_headers
        add_model_name add_stream model_name)
      (fun l entry => hstep l entry) d.rows []]
  simp

/-! ## The openai-completions loop is a map of the row builder -/

/-- Element-level effect of `_add_new_prompt_to_json` at the row's index. -/
def completionsPromptStep
    (system_role_headers user_role_headers text_input_headers : List String)
    (x : CompletionsPayload) (hc : String × String) : CompletionsPayload :=
  { x with prompt := joinContribution x.prompt (_create_new_prompt hc.1
      system_role_headers user_role_headers text_input_headers hc.2) }

theorem add_new_prompt_concat (l : List CompletionsPayload)
    (x : CompletionsPayload)
    (system_role_headers user_role_headers text_input_headers : List String)
    (hc : String × String) :
    _add_new_prompt_to_json (l ++ [x]) l.length
      (_create_new_prompt hc.1 system_role_headers user_role_headers
        text_input_headers hc.2)
      = l ++ [completionsPromptStep system_role_headers user_role_headers
          text_input_headers x hc] := by
  obtain ⟨p, m, st⟩ := x
  unfold completionsPromptStep _add_new_prompt_to_json joinContribution
  by_cases h1 : _create_new_prompt hc.1 system_role_headers user_role_headers
      text_input_headers hc.2 = "" <;>
    by_cases h2 : p = "" <;>
    simp [h1, h2, list_getD_concat, list_set_concat]

theorem completionsPromptStep_foldl
    (system_role_headers user_role_headers text_input_headers : List String)
    (entry : Row) : ∀ x : CompletionsPayload,
    entry.foldl (completionsPromptStep system_role_headers user_role_headers
        text_input_headers) x
      = { x with prompt := entry.foldl (fun acc hc =>
          joinContribution acc (_create_new_prompt hc.1 system_role_headers
            user_role_headers text_input_headers hc.2)) x.prompt } := by
  induction entry with
  | nil => intro x; rfl
  | cons hc entry ih =>
      intro x
      rw [List.foldl_cons, ih, List.foldl_cons]
      rfl

/-- Element-level effect of the completions optional-tags helper. -/
def applyCompletionsOptional (x : CompletionsPayload)
    (add_model_name add_stream : Bool) (model_name : String) : CompletionsPayload :=
  let x := if add_model_name then { x with model := some model_name } else x
  if add_stream then { x with stream := some true } else x

theorem completions_opt_concat (l : List CompletionsPayload)
    (x : CompletionsPayload) (add_model_name add_stream : Bool)
    (model_name : String) :
    _add_optional_tags_to_openai_completions_json (l ++ [x]) l.length
      add_model_name add_stream model_name
      = l ++ [applyCompletionsOptional x add_model_name add_stream model_name] := by
  unfold _add_optional_tags_to_openai_completions_json applyCompletionsOptional
  cases add_model_name <;> cases add_stream <;>
    simp [list_getD_concat, list_set_concat]

theorem populate_completions_eq_map (d : GenericDataset)
    (system_role_headers user_role_headers text_input_headers : List String)
    (add_model_name add_stream : Bool) (model_name : String) :
    _populate_openai_completions_output_json d system_role_headers
        user_role_headers text_input_headers add_model_name add_stream model_name
      = d.rows.map (fun entry => makeCompletionsPayload entry system_role_headers
          user_role_headers text_input_headers add_model_name add_stream
          model_name) := by
  unfold _populate_openai_completions_output_json
  have hstep : ∀ (l : List CompletionsPayload) (entry : Row),
      (_add_optional_tags_to_openai_completions_json
        (entry.foldl
          (fun pa_json hc => _add_new_prompt_to_json pa_json l.length
            (_create_new_prompt hc.1 system_role_headers user_role_headers
              text_input_headers hc.2))
          (l ++ [(⟨"", none, none⟩ : CompletionsPayload)]))
        l.length add_model_name add_stream model_name)
      = l ++ [makeCompletionsPayload entry system_role_headers user_role_headers
          text_input_headers add_model_name add_stream model_name] := by
    intro l entry
    rw [foldl_concat_fixed _
        (completionsPromptStep system_role_headers user_role_headers
          text_input_headers) l
        (fun x hc => add_new_prompt_concat l x system_role_headers
          user_role_headers text_input_headers hc)
        entry ⟨"", none, none⟩]
    rw [completions_opt_concat, completionsPromptStep_foldl]
    unfold applyCompletionsOptional makeCompletionsPayload
    cases add_model_name <;> cases add_stream <;> simp
  rw [foldl_append_one _
      (fun entry => makeCompletionsPayload entry system_role_headers
        user_role_headers text_input_headers add_model_name add_stream model_name)
      (fun l entry => hstep l entry) d.rows []]
  simp

/-! ## The vllm loop is a map of the row builder -/

/-- Element-level effect of `_add_new_text_input_to_json` at the row's index. -/
def vllmTextStep
    (system_role_headers user_role_headers text_input_headers : List String)
    (x : VllmPayload) (hc : String × String) : VllmPayload :=
  { x with text_input := joinContribution x.text_input (_create_new_text_input
      hc.1 system_role_headers user_role_headers text_input_headers hc.2) }

theorem add_new_text_input_concat (l : List VllmPayload) (x : VllmPayload)
    (system_role_headers user_role_headers text_input_headers : List String)
    (hc : String × String) :
    _add_new_text_input_to_json (l ++ [x]) l.length
      (_create_new_text_input hc.1 system_role_headers user_role_headers
        text_input_headers hc.2)
      = l ++ [vllmTextStep system_role_headers user_role_headers
          text_input_headers x hc] := by
  obtain ⟨t, m, st⟩ := x
  unfold vllmTextStep _add_new_text_input_to_json joinContribution
  by_cases h1 : _create_new_text_input hc.1 system_role_headers user_role_headers
      text_input_headers hc.2 = "" <;>
    by_cases h2 : t = "" <;>
    simp [h1, h2, list_getD_concat, list_set_concat]

theorem vllmTextStep_foldl
    (system_role_headers user_role_headers text_input_headers : List String)
    (entry : Row) : ∀ x : VllmPayload,
    entry.foldl (vllmTextStep system_role_headers user_role_headers
        text_input_headers) x
      = { x with text_input := entry.foldl (fun acc hc =>
          joinContribution acc (_create_new_text_input hc.1 system_role_headers
            user_role_headers text_input_headers hc.2)) x.text_input } := by
  induction entry with
  | nil => intro x; rfl
  | cons hc entry ih =>
      intro x
      rw [List.foldl_cons, ih, List.foldl_cons]
      rfl

/-- Element-level effect of the vllm optional-tags helper. -/
def applyVllmOptional (x : VllmPayload) (add_model_name add_stream : Bool)
    (model_name : String) : VllmPayload :=
  let x := if add_model_name then { x with model := some model_name } else x
  if add_stream then { x with stream := some [true] } else x

theorem vllm_opt_concat (l : List VllmPayload) (x : VllmPayload)
    (add_model_name add_stream : Bool) (model_name : String) :
    _add_optional_tags_to_vllm_json (l ++ [x]) l.length
      add_model_name add_stream model_name
      = l ++ [applyVllmOptional x add_model_name add_stream model_name] := by
  unfold _add_optional_tags_to_vllm_json applyVllmOptional
  cases add_model_name <;> cases add_stream <;>
    simp [list_getD_concat, list_set_concat]

theorem populate_vllm_eq_map (d : GenericDataset)
    (system_role_headers user_role_headers text_input_headers : List String)
    (add_model_name add_stream : Bool) (model_name : String) :
    _populate_vllm_output_json d system_role_headers user_role_headers
        text_input_headers add_model_name add_stream model_name
      = d.rows.map (fun entry => makeVllmPayload entry system_role_headers
          user_role_headers text_input_headers add_model_name add_stream
          model_name) := by
  unfold _populate_vllm_output_json
  have hstep : ∀ (l : List VllmPayload) (entry : Row),
      (_add_optional_tags_to_vllm_json
        (entry.foldl
          (fun pa_json hc => _add_new_text_input_to_json pa_json l.length
            (_create_new_text_input hc.1 system_role_headers user_role_headers
              text_input_headers hc.2))
          (l ++ [(⟨"", none, none⟩ : VllmPayload)]))
        l.length add_model_name add_stream model_name)
      = l ++ [makeVllmPayload entry system_role_headers user_role_headers
          text_input_headers add_model_name add_stream model_name] := by
    intro l entry
    rw [foldl_concat_fixed _
        (vllmTextStep system_role_headers user_role_headers text_input_headers) l
        (fun x hc => add_new_text_input_concat l x system_role_headers
          user_role_headers text_input_headers hc)
        entry ⟨"", none, none⟩]
    rw [vllm_opt_concat, vllmTextStep_foldl]
    unfold applyVllmOptional makeVllmPayload
    cases add_model_name <;> cases add_stream <;> simp
  rw [foldl_append_one _
      (fun entry => makeVllmPayload entry system_role_headers user_role_headers
        text_input_headers add_model_name add_stream model_name)
      (fun l entry => hstep l entry) d.rows []]
  simp

/-! ## The trtllm loop is a map of the row builder -/

/-- Element-level effect of the trtllm text helper at the row's index. -/
def trtllmTextStep
    (system_role_headers user_role_headers text_input_headers : List String)
    (x : TrtllmPayload) (hc : String × String) : TrtllmPayload :=
  { x with text_input := joinContribution x.text_input (_create_new_text_input
      hc.1 system_role_headers user_role_headers text_input_headers hc.2) }

theorem add_new_text_input_trtllm_concat (l : List TrtllmPayload)
    (x : TrtllmPayload)
    (system_role_headers user_role_headers text_input_headers : List String)
    (hc : String × String) :
    _add_new_text_input_to_trtllm_json (l ++ [x]) l.length
      (_create_new_text_input hc.1 system_role_headers user_role_headers
        text_input_headers hc.2)
      = l ++ [trtllmTextStep system_role_headers user_role_headers
          text_input_headers x hc] := by
  obtain ⟨t, mt, m, st⟩ := x
  unfold trtllmTextStep _add_new_text_input_to_trtllm_json joinContribution
  by_cases h1 : _create_new_text_input hc.1 system_role_headers user_role_headers
      text_input_headers hc.2 = "" <;>
    by_cases h2 : t = "" <;>
    simp [h1, h2, list_getD_concat, list_set_concat]

theorem trtllmTextStep_foldl
    (system_role_headers user_role_headers text_input_headers : List String)
    (entry : Row) : ∀ x : TrtllmPayload,
    entry.foldl (trtllmTextStep system_role_headers user_role_headers
        text_input_headers) x
      = { x with text_input := entry.foldl (fun acc hc =>
          joinContribution acc (_create_new_text_input hc.1 system_role_headers
            user_role_headers text_input_headers hc.2)) x.text_input } := by
  induction entry with
  | nil => intro x; rfl
  | cons hc entry ih =>
      intro x
      rw [List.foldl_cons, ih, List.foldl_cons]
      rfl

theorem trtllm_required_concat (l : List TrtllmPayload) (x : TrtllmPayload) :
    _add_required_tags_to_trtllm_json (l ++ [x]) l.length
      = l ++ [{ x with max_tokens := some [DEFAULT_TRTLLM_MAX_TOKENS] }] := by
  unfold _add_required_tags_to_trtllm_json
  simp [list_getD_concat, list_set_concat]

/-- Element-level effect of the trtllm optional-tags helper. -/
def applyTrtllmOptional (x : TrtllmPayload) (add_model_name add_stream : Bool)
    (model_name : String) : TrtllmPayload :=
  let x := if add_model_name then { x with model := some model_name } else x
  if add_stream then { x with stream := some [true] } else x

theorem trtllm_opt_concat (l : List TrtllmPayload) (x : TrtllmPayload)
    (add_model_name add_stream : Bool) (model_name : String) :
    _add_optional_tags_to_trtllm_json (l ++ [x]) l.length
      add_model_name add_stream model_name
      = l ++ [applyTrtllmOptional x add_model_name add_stream model_name] := by
  unfold _add_optional_tags_to_trtllm_json applyTrtllmOptional
  cases add_model_name <;> cases add_stream <;>
    simp [list_getD_concat, list_set_concat]

theorem populate_trtllm_eq_map (d : GenericDataset)
    (system_role_headers user_role_headers text_input_headers : List String)
    (add_model_name add_stream : Bool) (model_name : String) :
    _populate_trtllm_output_json d system_role_headers user_role_headers
        text_input_headers add_model_name add_stream model_name
      = d.rows.map (fun entry => makeTrtllmPayload entry system_role_headers
          user_role_headers text_input_headers add_model_name add_stream
          model_name) := by
  unfold _populate_trtllm_output_json
  have hstep : ∀ (l : List TrtllmPayload) (entry : Row),
      (_add_optional_tags_to_trtllm_json
        (_add_required_tags_to_trtllm_json
          (entry.foldl
            (fun pa_json hc => _add_new_text_input_to_trtllm_json pa_json l.length
              (_create_new_text_input hc.1 system_role_headers user_role_headers
                text_input_headers hc.2))
            (l ++ [(⟨"", none, none, none⟩ : TrtllmPayload)]))
          l.length)
        l.length add_model_name add_stream model_name)
      = l ++ [makeTrtllmPayload entry system_role_headers user_role_headers
          text_input_headers add_model_name add_stream model_name] := by
    intro l entry
    rw [foldl_concat_fixed _
        (trtllmTextStep system_role_headers user_role_headers text_input_headers) l
        (fun x hc => add_new_text_input_trtllm_concat l x system_role_headers
          user_role_headers text_input_headers hc)
        entry ⟨"", none, none, none⟩]
    rw [trtllm_required_concat, trtllm_opt_concat, trtllmTextStep_foldl]
    unfold applyTrtllmOptional makeTrtllmPayload
    cases add_model_name <;> cases add_stream <;> simp
  rw [foldl_append_one _
      (fun entry => makeTrtllmPayload entry system_role_headers user_role_headers
        text_input_headers add_model_name add_stream model_name)
      (fun l entry => hstep l entry) d.rows []]
  simp

/-! ## Closed form of the role classification -/

/-- Per-feature contribution to the system role list. -/
def roleStepSys (feature : String) : List String :=
  if feature ∈ ["system_prompt"] then [feature] else []

/-- Per-feature contribution to the user role list (the `text_input` match of
the loop also appends to the user list). -/
def roleStepUser (feature : String) : List String :=
  (if feature ∈ ["question", "article"] then [feature] else [])
    ++ (if feature ∈ ["text_input"] then [feature] else [])

theorem roles_step_eq (a b c : List String) (f : String) :
    _determine_json_feature_roles_step (a, b, c) f
      = (a ++ roleStepSys f, b ++ roleStepUser f, c) := by
  unfold _determine_json_feature_roles_step roleStepSys roleStepUser
  unfold SYSTEM_ROLE_LIST USER_ROLE_LIST TEXT_INPUT_LIST
  by_cases h1 : f ∈ (["system_prompt"] : List String) <;>
    by_cases h2 : f ∈ (["question", "article"] : List String) <;>
    by_cases h3 : f ∈ (["text_input"] : List String) <;>
    simp_all

theorem roles_foldl_aux (features : List String) : ∀ a b c : List String,
    features.foldl _determine_json_feature_roles_step (a, b, c)
    = (a ++ features.flatMap roleStepSys, b ++ features.flatMap roleStepUser, c) := by
  induction features with
  | nil => intro a b c; simp
  | cons f fs ih =>
      intro a b c
      rw [List.foldl_cons, roles_step_eq, ih]
      simp [List.flatMap_cons]

/-- The classifier in closed form: system and user lists are per-feature
contributions in declaration order, the text-input list is always empty. -/
theorem determine_roles_eq (d : GenericDataset) :
    _determine_json_feature_roles d
      = match d.features with
        | none => ([], [], [])
        | some features =>
            (features.flatMap roleStepSys, features.flatMap roleStepUser, []) := by
  unfold _determine_json_feature_roles
  cases d.features with
  | none => rfl
  | some features => simpa using roles_foldl_aux features [] [] []

/-! ## Claim theorems -/

/-- C1: for every canonical dataset and each of the four formatters, the
returned data list has exactly one payload per row, in row order, and the
payload at index `i` is computed from the row at index `i` alone (together
with the role lists and the optional-field flags). -/
theorem claim_C1_row_order_preservation (d : GenericDataset)
    (system_role_headers user_role_headers text_input_headers : List String)
    (add_model_name add_stream : Bool) (model_name : String) :
    ((_populate_openai_chat_completions_output_json d system_role_headers
        user_role_headers add_model_name add_stream model_name).length
          = d.rows.length
      ∧ ∀ i : Nat,
        (_populate_openai_chat_completions_output_json d system_role_headers
          user_role_headers add_model_name add_stream model_name)[i]?
        = (d.rows[i]?).map (fun entry => makeChatPayload entry
            system_role_headers user_role_headers add_model_name add_stream
            model_name))
    ∧ ((_populate_openai_completions_output_json d system_role_headers
        user_role_headers text_input_headers add_model_name add_stream
        model_name).length = d.rows.length
      ∧ ∀ i : Nat,
        (_populate_openai_completions_output_json d system_role_headers
          user_role_headers text_input_headers add_model_name add_stream
          model_name)[i]?
        = (d.rows[i]?).map (fun entry => makeCompletionsPayload entry
            system_role_headers user_role_headers text_input_headers
            add_model_name add_stream model_name))
    ∧ ((_populate_vllm_output_json d system_role_headers user_role_headers
        text_input_headers add_model_name add_stream model_name).length
          = d.rows.length
      ∧ ∀ i : Nat,
        (_populate_vllm_output_json d system_role_headers user_role_headers
          text_input_headers add_model_name add_stream model_name)[i]?
        = (d.rows[i]?).map (fun entry => makeVllmPayload entry
            system_role_headers user_role_headers text_input_headers
            add_model_name add_stream model_name))
    ∧ ((_populate_trtllm_output_json d system_role_headers user_role_headers
        text_input_headers add_model_name add_stream model_name).length
          = d.rows.length
      ∧ ∀ i : Nat,
        (_populate_trtllm_output_json d system_role_headers user_role_headers
          text_input_headers add_model_name add_stream model_name)[i]?
        = (d.rows[i]?).map (fun entry => makeTrtllmPayload entry
            system_role_headers user_role_headers text_input_headers
            add_model_name add_stream model_name)) := by
  refine ⟨⟨?_, ?_⟩, ⟨?_, ?_⟩, ⟨?_, ?_⟩, ⟨?_, ?_⟩⟩ <;>
    simp [populate_chat_eq_map, populate_completions_eq_map,
      populate_vllm_eq_map, populate_trtllm_eq_map]

/-- C4: every trtllm payload carries `max_tokens = [256]`, for every dataset,
every role classification and all four optional-flag combinations. -/
theorem claim_C4_trtllm_max_tokens (d : GenericDataset)
    (system_role_headers user_role_headers text_input_headers : List String)
    (add_model_name add_stream : Bool) (model_name : String) :
    ∀ p ∈ _populate_trtllm_output_json d system_role_headers user_role_headers
        text_input_headers add_model_name add_stream model_name,
      p.max_tokens = some [256] := by
  intro p hp
  rw [populate_trtllm_eq_map] at hp
  obtain ⟨entry, _, rfl⟩ := List.mem_map.mp hp
  rfl

/-- Witness for C4 at a concrete dataset and flag setting. -/
theorem claim_C4_trtllm_max_tokens_witness :
    ({ text_input := "q1", max_tokens := some [256], model := some "m",
        stream := none } : TrtllmPayload).max_tokens = some [256] :=
  claim_C4_trtllm_max_tokens ⟨some ["question"], [[("question", "q1")]]⟩
    [] ["question"] [] true false "m"
    { text_input := "q1", max_tokens := some [256], model := some "m",
      stream := none }
    (by decide)

/-- C6 counterexample: a raw dataset with no `features` key yields a canonical
dataset that itself has no `features` key (`none`), not an empty features
list (`some []`), refuting the claim as stated at the concrete raw dataset
`{rows: []}`. -/
theorem claim_C6_counterexample :
    (_convert_dataset_to_generic_input_json { features := none, rows := [] }).features
        = none
    ∧ (none : Option (List String)) ≠ some [] := ⟨rfl, by simp⟩

/-- C6 (amended): normalization maps features to the flat list of unwrapped
names and rows to the flat list of unwrapped row maps; a raw dataset with no
`features` key yields (without error) a canonical dataset with no `features`
key, which the role classifier treats exactly like an empty features list
(all role lists empty). -/
theorem claim_C6_normalization_amended (raw : RawDataset) :
    (_convert_dataset_to_generic_input_json raw).features
        = raw.features.map (fun features => features.map RawFeature.name)
    ∧ (_convert_dataset_to_generic_input_json raw).rows = raw.rows.map RawRow.row
    ∧ _determine_json_feature_roles
        (_convert_dataset_to_generic_input_json { features := none, rows := raw.rows })
        = ([], [], []) := by
  refine ⟨?_, rfl, rfl⟩
  cases h : raw.features <;>
    simp [_convert_dataset_to_generic_input_json, _add_features_to_generic_json, h]

/-- C8: the synthetic dataset has one row per requested prompt, and the
prompt at index `i` is produced by the generator under seed
`random_seed + i`; with the external generator a fixed deterministic
function of its seed and parameters, two runs with identical arguments
therefore produce identical prompt sequences. -/
theorem claim_C8_synthetic_seed_determinism
    (gen : Int → Int → Int → Int → String × Int)
    (prompt_tokens_mean prompt_tokens_stddev expected_output_tokens : Int)
    (num_of_output_prompts : Nat) (random_seed : Int) :
    ((_get_input_dataset_from_synthetic gen prompt_tokens_mean
        prompt_tokens_stddev expected_output_tokens num_of_output_prompts
        random_seed).rows.length = num_of_output_prompts)
    ∧ ∀ i : Nat,
      (_get_input_dataset_from_synthetic gen prompt_tokens_mean
        prompt_tokens_stddev expected_output_tokens num_of_output_prompts
        random_seed).rows[i]?
      = if i < num_of_output_prompts then
          some { row := [("text_input",
            (_create_synthetic_prompt gen prompt_tokens_mean
              prompt_tokens_stddev expected_output_tokens
              (random_seed + (i : Int))).1)] }
        else none := by
  constructor
  · simp only [_get_input_dataset_from_synthetic]
    rw [List.length_map, List.length_range]
  · intro i
    simp only [_get_input_dataset_from_synthetic]
    rw [List.getElem?_map]
    by_cases h : i < num_of_output_prompts
    · rw [List.getElem?_range h]
      simp [h]
    · have hnone : (List.range num_of_output_prompts)[i]? = none := by
        rw [List.getElem?_eq_none]
        simpa using h
      rw [hnone]
      simp [h]

/-- C2: for the completions, vllm and trtllm formatters, the text field of
payload `i` is the fold, in stored order, of the row's role-classified
contributions under `joinContribution`, whose defining equations say: an
empty contribution changes nothing, the first non-empty contribution sets the
field verbatim, and every later non-empty contribution is appended after
exactly one space; in particular `[a: "hello", b: "world"]` (both user-role)
gives `"hello world"` and `[a: "", b: "world"]` gives `"world"`. -/
theorem claim_C2_text_concatenation
    (system_role_headers user_role_headers text_input_headers : List String)
    (add_model_name add_stream : Bool) (model_name : String) :
    (∀ (d : GenericDataset) (i : Nat),
      ((_populate_openai_completions_output_json d system_role_headers
          user_role_headers text_input_headers add_model_name add_stream
          model_name)[i]?).map CompletionsPayload.prompt
        = (d.rows[i]?).map (fun entry => entry.foldl (fun acc hc =>
            joinContribution acc (_create_new_prompt hc.1 system_role_headers
              user_role_headers text_input_headers hc.2)) ""))
    ∧ (∀ (d : GenericDataset) (i : Nat),
      ((_populate_vllm_output_json d system_role_headers user_role_headers
          text_input_headers add_model_name add_stream
          model_name)[i]?).map VllmPayload.text_input
        = (d.rows[i]?).map (fun entry => entry.foldl (fun acc hc =>
            joinContribution acc (_create_new_text_input hc.1
              system_role_headers user_role_headers text_input_headers
              hc.2)) ""))
    ∧ (∀ (d : GenericDataset) (i : Nat),
      ((_populate_trtllm_output_json d system_role_headers user_role_headers
          text_input_headers add_model_name add_stream
          model_name)[i]?).map TrtllmPayload.text_input
        = (d.rows[i]?).map (fun entry => entry.foldl (fun acc hc =>
            joinContribution acc (_create_new_text_input hc.1
              system_role_headers user_role_headers text_input_headers
              hc.2)) ""))
    ∧ (∀ acc contribution : String,
        joinContribution acc "" = acc
        ∧ (contribution ≠ "" → joinContribution "" contribution = contribution)
        ∧ (contribution ≠ "" → acc ≠ "" →
            joinContribution acc contribution = acc ++ " " ++ contribution))
    ∧ ((_populate_vllm_output_json ⟨some ["a", "b"], [[("a", "hello"), ("b", "world")]]⟩
          [] ["a", "b"] [] false false "").map VllmPayload.text_input
        = ["hello world"])
    ∧ ((_populate_vllm_output_json ⟨some ["a", "b"], [[("a", ""), ("b", "world")]]⟩
          [] ["a", "b"] [] false false "").map VllmPayload.text_input
        = ["world"]) := by
  refine ⟨?_, ?_, ?_, ?_, ?_, ?_⟩
  · intro d i
    simp only [populate_completions_eq_map, List.getElem?_map, Option.map_map]
    cases d.rows[i]? <;> rfl
  · intro d i
    simp only [populate_vllm_eq_map, List.getElem?_map, Option.map_map]
    cases d.rows[i]? <;> rfl
  · intro d i
    simp only [populate_trtllm_eq_map, List.getElem?_map, Option.map_map]
    cases d.rows[i]? <;> rfl
  · intro acc contribution
    refine ⟨by simp [joinContribution], fun h => by simp [joinContribution, h],
      fun h1 h2 => by simp [joinContribution, h1, h2]⟩
  · rfl
  · rfl

/-- Witness for C2 at a concrete dataset, index and contribution strings. -/
theorem claim_C2_text_concatenation_witness :
    ((_populate_vllm_output_json ⟨some ["a", "b"], [[("a", "hello"), ("b", "world")]]⟩
        [] ["a", "b"] [] false false "")[0]?).map VllmPayload.text_input
      = some ("hello" ++ " " ++ "world")
    ∧ joinContribution "hello" "world" = "hello" ++ " " ++ "world" := by
  have h := claim_C2_text_concatenation [] ["a", "b"] [] false false ""
  refine ⟨?_, (h.2.2.2.1 "hello" "world").2.2 (by decide) (by decide)⟩
  rw [h.2.1 ⟨some ["a", "b"], [[("a", "hello"), ("b", "world")]]⟩ 0]
  rfl

/-- C3: in the chat-completions formatter a blank content contributes no
message at all: the message constructor returns nothing for empty content,
produces a message exactly for non-empty content on a role-classified
header, the messages of payload `i` are exactly the per-pair messages of row
`i` in stored order, and a row whose only header is role-classified with
empty content yields a payload with an empty messages list. -/
theorem claim_C3_blank_content_skipped
    (system_role_headers user_role_headers : List String)
    (add_model_name add_stream : Bool) (model_name : String) :
    (∀ header, _create_new_openai_chat_completions_message header
        system_role_headers user_role_headers "" = none)
    ∧ (∀ header content,
        (∃ m, _create_new_openai_chat_completions_message header
            system_role_headers user_role_headers content = some m)
        ↔ (content ≠ "" ∧ (header ∈ system_role_headers
            ∨ header ∈ user_role_headers)))
    ∧ (∀ (d : GenericDataset) (i : Nat),
        ((_populate_openai_chat_completions_output_json d system_role_headers
            user_role_headers add_model_name add_stream
            model_name)[i]?).map ChatPayload.messages
          = (d.rows[i]?).map (fun entry => entry.filterMap (fun hc =>
              _create_new_openai_chat_completions_message hc.1
                system_role_headers user_role_headers hc.2)))
    ∧ (∀ entry : Row,
        (∀ hc ∈ entry, hc.2 = ""
            ∨ (hc.1 ∉ system_role_headers ∧ hc.1 ∉ user_role_headers)) →
        _populate_openai_chat_completions_output_json ⟨some [], [entry]⟩
            system_role_headers user_role_headers add_model_name add_stream
            model_name
          = [{ messages := []
               model := if add_model_name then some model_name else none
               stream := if add_stream then some true else none }]) := by
  refine ⟨?_, ?_, ?_, ?_⟩
  · intro header
    simp [_create_new_openai_chat_completions_message]
  · intro header content
    unfold _create_new_openai_chat_completions_message
    by_cases h1 : content = "" <;>
      by_cases h2 : header ∈ system_role_headers <;>
      by_cases h3 : header ∈ user_role_headers <;>
      simp [h1, h2, h3]
  · intro d i
    simp only [populate_chat_eq_map, List.getElem?_map, Option.map_map]
    cases d.rows[i]? <;> rfl
  · intro entry hentry
    rw [populate_chat_eq_map]
    simp only [List.map_cons, List.map_nil]
    unfold makeChatPayload
    have hnil : entry.filterMap (fun hc =>
        _create_new_openai_chat_completions_message hc.1 system_role_headers
          user_role_headers hc.2) = [] := by
      rw [List.filterMap_eq_nil_iff]
      intro hc hmem
      rcases hentry hc hmem with h | ⟨hs, hu⟩
      · simp [_create_new_openai_chat_completions_message, h]
      · simp [_create_new_openai_chat_completions_message, hs, hu]
    rw [hnil]

/-- Witness for C3: a row whose only header is user-role-classified with
empty content yields one payload with an empty messages list. -/
theorem claim_C3_blank_content_skipped_witness :
    _populate_openai_chat_completions_output_json ⟨some [], [[("h", "")]]⟩
        ["h"] [] false false ""
      = [{ messages := [], model := none, stream := none }] :=
  (claim_C3_blank_content_skipped ["h"] [] false false "").2.2.2
    [("h", "")] (by decide)

theorem mem_roleStepSys {name f : String} (h : name ∈ roleStepSys f) :
    name = f ∧ f = "system_prompt" := by
  unfold roleStepSys at h
  split at h <;> simp_all

theorem mem_roleStepUser {name f : String} (h : name ∈ roleStepUser f) :
    name = f ∧ (f = "question" ∨ f = "article" ∨ f = "text_input") := by
  unfold roleStepUser at h
  rcases List.mem_append.mp h with h | h <;> split at h <;> simp_all <;> tauto

/-- C7: role classification is total and pure (a total function of the
feature list), names outside the fixed vocabulary land in none of the three
role lists, a feature named `text_input` lands in the user-role list, and the
returned text-input role list is empty for every input. -/
theorem claim_C7_role_classification (d : GenericDataset) :
    ((_determine_json_feature_roles d).2.2 = [])
    ∧ (∀ name, name ∉ (["system_prompt", "question", "article", "text_input"] :
          List String) →
        name ∉ (_determine_json_feature_roles d).1
        ∧ name ∉ (_determine_json_feature_roles d).2.1
        ∧ name ∉ (_determine_json_feature_roles d).2.2)
    ∧ (∀ fs, d.features = some fs → "text_input" ∈ fs →
        "text_input" ∈ (_determine_json_feature_roles d).2.1) := by
  rw [determine_roles_eq]
  cases hf : d.features with
  | none =>
      refine ⟨rfl, ?_, ?_⟩
      · intro name _
        simp
      · intro fs hfs
        simp at hfs
  | some features =>
      refine ⟨rfl, ?_, ?_⟩
      · intro name hname
        refine ⟨?_, ?_, by simp⟩
        · intro hmem
          obtain ⟨f, _, hmem2⟩ := List.mem_flatMap.mp hmem
          obtain ⟨rfl, rfl⟩ := mem_roleStepSys hmem2
          simp at hname
        · intro hmem
          obtain ⟨f, _, hmem2⟩ := List.mem_flatMap.mp hmem
          obtain ⟨rfl, hvoc⟩ := mem_roleStepUser hmem2
          rcases hvoc with rfl | rfl | rfl <;> simp at hname
      · intro fs hfs hmem
        cases hfs
        exact List.mem_flatMap.mpr ⟨"text_input", hmem, by decide⟩

/-- Witness for C7 at a concrete feature list: `junk` is classified nowhere,
`text_input` reaches the user-role list, and the text-input list is empty. -/
theorem claim_C7_role_classification_witness :
    ((_determine_json_feature_roles ⟨some ["text_input", "junk"], []⟩).2.2 = [])
    ∧ ("junk" ∉ (_determine_json_feature_roles
          ⟨some ["text_input", "junk"], []⟩).1
        ∧ "junk" ∉ (_determine_json_feature_roles
          ⟨some ["text_input", "junk"], []⟩).2.1
        ∧ "junk" ∉ (_determine_json_feature_roles
          ⟨some ["text_input", "junk"], []⟩).2.2)
    ∧ "text_input" ∈ (_determine_json_feature_roles
        ⟨some ["text_input", "junk"], []⟩).2.1 := by
  have h := claim_C7_role_classification ⟨some ["text_input", "junk"], []⟩
  exact ⟨h.1, h.2.1 "junk" (by decide),
    h.2.2 ["text_input", "junk"] rfl (by decide)⟩

/-- C10: when a header is classified both system-role and user-role, the chat
formatter emits exactly one message for it per occurrence and its role is
`system` (the system check precedes the user check), for every row and every
non-empty content. -/
theorem claim_C10_system_role_precedence
    (system_role_headers user_role_headers : List String)
    (header content : String) (add_model_name add_stream : Bool)
    (model_name : String)
    (h1 : header ∈ system_role_headers) (h2 : header ∈ user_role_headers)
    (h3 : content ≠ "") :
    _create_new_openai_chat_completions_message header system_role_headers
        user_role_headers content = some { role := "system", content := content }
    ∧ ∀ (pre post : Row) (features : Option (List String)),
        _populate_openai_chat_completions_output_json
            ⟨features, [pre ++ (header, content) :: post]⟩ system_role_headers
            user_role_headers add_model_name add_stream model_name
          = [{ messages := pre.filterMap (fun hc =>
                  _create_new_openai_chat_completions_message hc.1
                    system_role_headers user_role_headers hc.2)
                ++ { role := "system", content := content }
                  :: post.filterMap (fun hc =>
                    _create_new_openai_chat_completions_message hc.1
                      system_role_headers user_role_headers hc.2)
               model := if add_model_name then some model_name else none
               stream := if add_stream then some true else none }] := by
  have hmsg : _create_new_openai_chat_completions_message header
      system_role_headers user_role_headers content
        = some { role := "system", content := content } := by
    unfold _create_new_openai_chat_completions_message
    simp [h1, h3]
  refine ⟨hmsg, ?_⟩
  intro pre post features
  rw [populate_chat_eq_map]
  simp only [List.map_cons, List.map_nil]
  unfold makeChatPayload
  simp [hmsg, List.filterMap_append, List.filterMap_cons]

/-- Witness for C10: one doubly-classified header with non-empty content
yields exactly one system message end to end. -/
theorem claim_C10_system_role_precedence_witness :
    _create_new_openai_chat_completions_message "h" ["h"] ["h"] "c"
        = some { role := "system", content := "c" }
    ∧ _populate_openai_chat_completions_output_json ⟨some [], [[("h", "c")]]⟩
        ["h"] ["h"] false false ""
        = [{ messages := [{ role := "system", content := "c" }],
             model := none, stream := none }] := by
  have h := claim_C10_system_role_precedence ["h"] ["h"] "h" "c" false false ""
    (by decide) (by decide) (by decide)
  exact ⟨h.1, h.2 [] [] (some [])⟩

theorem check_for_valid_args_ok_iff (input_type : InputType)
    (dataset_name : String) (starting_index length : Int) :
    _check_for_valid_args input_type dataset_name starting_index length
        = Except.ok ()
      ↔ (0 ≤ starting_index ∧ 1 ≤ length
          ∧ (input_type = InputType.URL → dataset_name ≠ "")) := by
  unfold _check_for_valid_args _check_for_dataset_name_if_input_type_is_url
    _check_for_valid_starting_index _check_for_valid_length
    MINIMUM_STARTING_INDEX MINIMUM_LENGTH
  split_ifs with h1 h2 h3 <;>
    simp [Except.bind, bind] <;> push_neg at * <;> try tauto
  all_goals omega

/-- C5: argument validation accepts exactly the pairs with
`starting_index ≥ 0` and `length ≥ 1` (plus, for a URL source, a non-empty
dataset name), and any violation makes `create_llm_inputs` return that same
error with an empty side-effect trace — before any fetch and with no output
file written. -/
theorem claim_C5_validation_accepts_exactly (input_type : InputType)
    (dataset_name : String) (starting_index length : Int) :
    (_check_for_valid_args input_type dataset_name starting_index length
        = Except.ok ()
      ↔ (0 ≤ starting_index ∧ 1 ≤ length
          ∧ (input_type = InputType.URL → dataset_name ≠ "")))
    ∧ ∀ (e : String) (fetch : String → Except String DatasetJson)
        (gen : Int → Int → Int → Int → String × Int)
        (output_format : OutputFormat) (model_name : String)
        (ptm pts eot seed : Int) (nop : Nat) (add_model_name add_stream : Bool),
        _check_for_valid_args input_type dataset_name starting_index length
            = Except.error e →
        create_llm_inputs fetch gen input_type output_format dataset_name
            model_name starting_index length ptm pts eot seed nop
            add_model_name add_stream
          = ([], Except.error e) := by
  refine ⟨check_for_valid_args_ok_iff input_type dataset_name starting_index
    length, ?_⟩
  intro e fetch gen output_format model_name ptm pts eot seed nop
    add_model_name add_stream herr
  unfold create_llm_inputs
  rw [herr]

/-- Witness for C5: a URL run without a dataset name fails with the specific
validation error and an empty event trace (no fetch, no file write). -/
theorem claim_C5_validation_accepts_exactly_witness :
    create_llm_inputs (fun _ => Except.error "net")
        (fun _ _ _ _ => ("p", 0)) InputType.URL OutputFormat.VLLM "" ""
        0 1 550 0 150 0 1 false false
      = ([], Except.error "Input type is URL, but dataset_name is not specified.") :=
  (claim_C5_validation_accepts_exactly InputType.URL "" 0 1).2
    "Input type is URL, but dataset_name is not specified."
    (fun _ => Except.error "net") (fun _ _ _ _ => ("p", 0))
    OutputFormat.VLLM "" 550 0 150 0 1 false false rfl

/-- C9: with a URL source and a dataset name outside the registry, URL
resolution fails with the unknown-dataset error and the event trace stays
empty: no network fetch is ever recorded, and the whole run returns the same
error with an empty trace. -/
theorem claim_C9_unknown_dataset_no_fetch (dataset_name : String)
    (fetch : String → Except String DatasetJson) (starting_index length : Int)
    (h1 : dataset_name ≠ OPEN_ORCA) (h2 : dataset_name ≠ CNN_DAILY_MAIL) :
    _get_input_dataset_from_url fetch dataset_name starting_index length
      = ([], Except.error (dataset_name
          ++ " does not have a corresponding URL in the dataset_url_map."))
    ∧ ∀ (gen : Int → Int → Int → Int → String × Int)
        (output_format : OutputFormat) (model_name : String)
        (ptm pts eot seed : Int) (nop : Nat) (add_model_name add_stream : Bool),
        dataset_name ≠ "" → 0 ≤ starting_index → 1 ≤ length →
        create_llm_inputs fetch gen InputType.URL output_format dataset_name
            model_name starting_index length ptm pts eot seed nop
            add_model_name add_stream
          = ([], Except.error (dataset_name
              ++ " does not have a corresponding URL in the dataset_url_map.")) := by
  have hres : _get_input_dataset_from_url fetch dataset_name starting_index length
      = ([], Except.error (dataset_name
          ++ " does not have a corresponding URL in the dataset_url_map.")) := by
    unfold _get_input_dataset_from_url _resolve_url dataset_url_map
    unfold OPEN_ORCA at h1
    unfold CNN_DAILY_MAIL at h2
    have hb1 : (dataset_name == "openorca") = false := beq_eq_false_iff_ne.mpr h1
    have hb2 : (dataset_name == "cnn_dailymail") = false :=
      beq_eq_false_iff_ne.mpr h2
    simp [List.lookup, OPEN_ORCA, CNN_DAILY_MAIL, hb1, hb2]
  refine ⟨hres, ?_⟩
  intro gen output_format model_name ptm pts eot seed nop add_model_name
    add_stream hdn hsi hlen
  have hok : _check_for_valid_args InputType.URL dataset_name starting_index
      length = Except.ok () :=
    (check_for_valid_args_ok_iff InputType.URL dataset_name starting_index
      length).mpr ⟨hsi, hlen, fun _ => hdn⟩
  unfold create_llm_inputs
  rw [hok, hres]

/-- Witness for C9: the unregistered name `nope` fails before any fetch. -/
theorem claim_C9_unknown_dataset_no_fetch_witness :
    _get_input_dataset_from_url (fun _ => Except.error "net") "nope" 0 1
      = ([], Except.error ("nope"
          ++ " does not have a corresponding URL in the dataset_url_map."))
    ∧ create_llm_inputs (fun _ => Except.error "net")
        (fun _ _ _ _ => ("p", 0)) InputType.URL OutputFormat.TRTLLM "nope" ""
        0 1 550 0 150 0 1 false false
      = ([], Except.error ("nope"
          ++ " does not have a corresponding URL in the dataset_url_map.")) := by
  have h := claim_C9_unknown_dataset_no_fetch "nope"
    (fun _ => Except.error "net") 0 1 (by decide) (by decide)
  exact ⟨h.1, h.2 (fun _ _ _ _ => ("p", 0)) OutputFormat.TRTLLM "" 550 0 150 0 1
    false false (by decide) (by decide) (by decide)⟩
